import Mathlib

/-!
Shallow embedding of the local-cache / remote-sync engine of
`src/context/StoreContext.tsx` (the Supabase revision, lines 300-651; the mock
revision, lines 1-299, shares the same cache-mutation logic where both are
cited). Pure cache mutations become Lean functions on lists; each remote round
trip's outcome is passed in explicitly (an `Option` result row for a call whose
`data` the code inspects, a `Bool` error flag for a call whose `error` the code
inspects or discards). JS numbers for monetary amounts are modelled as `Int`;
`parseFloat` of an exact numeric column is modelled as the identity.

Enumerations declared in `../types` (absent from `src/`) are modelled from the
spec and from their uses in `StoreContext.tsx`: `TransactionType` with
`INCOME`/`EXPENSE`, transaction status strings `PENDING`/`APPROVED`/`REJECTED`,
`UserRole` with `TRESORIER`/`PRESIDENT`/`MEMBRE`, `Gender` with `MALE`/`FEMALE`.
`Sector` and `Level` values never matter to the engine, so they stay `String`.
-/

inductive TransactionType
  | INCOME
  | EXPENSE
deriving DecidableEq, Repr

inductive TxStatus
  | PENDING
  | APPROVED
  | REJECTED
deriving DecidableEq, Repr

inductive UserRole
  | TRESORIER
  | PRESIDENT
  | MEMBRE
deriving DecidableEq, Repr

inductive Gender
  | MALE
  | FEMALE
deriving DecidableEq, Repr

/-- Internal `Transaction` entity (camelCase app shape). -/
structure Transaction where
  id : String
  type : TransactionType
  category : String
  amount : Int
  date : String
  description : String
  performedBy : String
  matricule : String
  function : String
  responsible : String
  status : TxStatus
  signature : String
  receiptNumber : Option String
  proofUrl : Option String
deriving DecidableEq, Repr

/-- Internal `Budget` entity. -/
structure Budget where
  id : String
  category : String
  allocatedAmount : Int
  spentAmount : Int
  year : Int
deriving DecidableEq, Repr

/-- Internal `AppSettings` singleton. -/
structure AppSettings where
  associationName : String
  currency : String
  logoUrl : String
deriving DecidableEq, Repr

/-- Session principal (`User` in the app; held only in memory). -/
structure User where
  email : String
  name : String
  role : UserRole
  memberId : Option String
deriving DecidableEq, Repr

/-- Internal `Member` entity; `sector` and `level` are opaque enum values. -/
structure Member where
  id : String
  dossierNumber : String
  ine : String
  uniqueId : String
  firstName : String
  lastName : String
  dob : String
  sector : String
  level : String
  gender : Gender
  balance : Int
deriving DecidableEq, Repr

/-- Denormalized author snapshot `{ sector, level }` carried by a message. -/
structure MemberInfo where
  sector : String
  level : String
deriving DecidableEq, Repr

/-- Internal `CommunityMessage` entity. -/
structure CommunityMessage where
  id : String
  userId : String
  userName : String
  userRole : UserRole
  memberInfo : Option MemberInfo
  content : String
  timestamp : String
deriving DecidableEq, Repr

/-- The full in-memory cache snapshot held by `StoreProvider`. -/
structure StoreState where
  user : Option User
  transactions : List Transaction
  members : List Member
  budgets : List Budget
  messages : List CommunityMessage
  settings : AppSettings
deriving DecidableEq, Repr

/-!
### Derived Aggregator

`StoreContext.tsx` lines 439-450 (identically lines 136-147 in the mock
revision): on every change of `transactions`, each budget's `spentAmount` is
replaced by the reduce-sum of the amounts of the approved expense transactions
in that budget's category; the surrounding `JSON.stringify` guard only
suppresses a redundant `setBudgets` and does not alter the computed list.
-/

/-- The recomputed budget list (`newBudgets` in the source). -/
def recompute (transactions : List Transaction) (budgets : List Budget) : List Budget :=
  budgets.map (fun b =>
    { b with
      spentAmount :=
        ((transactions.filter (fun t =>
            t.type == TransactionType.EXPENSE && t.category == b.category
              && t.status == TxStatus.APPROVED)).foldl
          (fun acc t => acc + t.amount) 0) })

theorem foldl_add_amount (l : List Transaction) (init : Int) :
    l.foldl (fun acc t => acc + t.amount) init
      = init + (l.map Transaction.amount).sum := by
  induction l generalizing init with
  | nil => simp
  | cons t ts ih =>
    simp only [List.foldl_cons, List.map_cons, List.sum_cons]
    rw [ih]
    ring

theorem filter_expense_comm (T : List Transaction) (c : String) :
    T.filter (fun t =>
        t.type == TransactionType.EXPENSE && t.category == c
          && t.status == TxStatus.APPROVED)
      = T.filter (fun t =>
        t.type == TransactionType.EXPENSE && t.status == TxStatus.APPROVED
          && t.category == c) := by
  apply List.filter_congr
  intro t _
  cases htype : (t.type == TransactionType.EXPENSE) <;>
    cases hcat : (t.category == c) <;>
      cases hst : (t.status == TxStatus.APPROVED) <;> rfl

/-- C1: for every transaction list `T` and budget list `B`, the i-th recomputed
budget's `spentAmount` is the sum of `t.amount` over all `t` in `T` with
`t.type == EXPENSE`, `t.status == APPROVED` and `t.category == B[i].category`,
and its `id`, `category`, `allocatedAmount` and `year` are those of `B[i]`. -/
theorem recompute_spentAmount_spec (T : List Transaction) (B : List Budget)
    (i : Nat) (h : i < B.length) (h2 : i < (recompute T B).length) :
    (recompute T B)[i].spentAmount
        = ((T.filter (fun t =>
            t.type == TransactionType.EXPENSE && t.status == TxStatus.APPROVED
              && t.category == B[i].category)).map Transaction.amount).sum
      ∧ (recompute T B)[i].id = B[i].id
      ∧ (recompute T B)[i].category = B[i].category
      ∧ (recompute T B)[i].allocatedAmount = B[i].allocatedAmount
      ∧ (recompute T B)[i].year = B[i].year := by
  simp only [recompute, List.getElem_map]
  refine ⟨?_, trivial, trivial, trivial, trivial⟩
  rw [foldl_add_amount, filter_expense_comm]
  simp

/-- A concrete approved expense transaction (the sample expense of the mock
data, after approval), used by witnesses. -/
def sampleExpenseTx : Transaction :=
  { id := "t2", type := TransactionType.EXPENSE, category := "Transport",
    amount := 2000, date := "2023-10-05",
    description := "Taxi pour reunion prefecture",
    performedBy := "Marie Curie", matricule := "B00000000001",
    function := "Secretaire", responsible := "President",
    status := TxStatus.APPROVED, signature := "SIG-124",
    receiptNumber := none, proofUrl := none }

/-- A concrete budget with a placeholder identifier, used by witnesses. -/
def sampleBudget : Budget :=
  { id := "b-0", category := "Transport", allocatedAmount := 50000,
    spentAmount := 0, year := 2023 }

/-- Witness for `recompute_spentAmount_spec` at a concrete transaction and
budget list. -/
theorem recompute_spentAmount_spec_witness :
    ((recompute [sampleExpenseTx] [sampleBudget]).get ⟨0, by decide⟩).spentAmount
      = (([sampleExpenseTx].filter (fun t =>
          t.type == TransactionType.EXPENSE && t.status == TxStatus.APPROVED
            && t.category
              == (([sampleBudget] : List Budget).get ⟨0, by decide⟩).category)).map
          Transaction.amount).sum :=
  (recompute_spentAmount_spec [sampleExpenseTx] [sampleBudget] 0 (by decide)
    (by decide)).1

/-- C9: the budget recomputation is idempotent. -/
theorem recompute_idempotent (T : List Transaction) (B : List Budget) :
    recompute T (recompute T B) = recompute T B := by
  simp only [recompute, List.map_map]
  congr 1

/-!
### Transaction status mutations

`approveTransaction` / `rejectTransaction` (lines 503-515) and
`deleteTransaction` (lines 517-520): each awaits one remote call and applies
the cache mutation only when the destructured `error` is absent. The remote
outcome is passed in as the `err` flag.
-/

/-- Source `approveTransaction`: on remote success, set the status of every cached
transaction whose id matches to APPROVED; on remote error leave the cache. -/
def approveTransaction (err : Bool) (id : String) (ts : List Transaction) :
    List Transaction :=
  if err then ts
  else ts.map (fun t =>
    if t.id == id then { t with status := TxStatus.APPROVED } else t)

/-- Source `rejectTransaction`: on remote success, set the status of every cached
transaction whose id matches to REJECTED; on remote error leave the cache. -/
def rejectTransaction (err : Bool) (id : String) (ts : List Transaction) :
    List Transaction :=
  if err then ts
  else ts.map (fun t =>
    if t.id == id then { t with status := TxStatus.REJECTED } else t)

/-- Source `deleteTransaction`: on remote success, drop the cached transaction whose
id matches; on remote error leave the cache. -/
def deleteTransaction (err : Bool) (id : String) (ts : List Transaction) :
    List Transaction :=
  if err then ts
  else ts.filter (fun t => t.id != id)

/-- The sample expense transaction in REJECTED state. -/
def sampleRejectedTx : Transaction :=
  { sampleExpenseTx with status := TxStatus.REJECTED }

/-- C2 counterexample: `approveTransaction` performs no status check — applied
to a transaction whose status is REJECTED, it yields APPROVED, and
`rejectTransaction` applied to an APPROVED transaction yields REJECTED. -/
theorem approve_rejected_yields_approved :
    sampleRejectedTx.status = TxStatus.REJECTED
      ∧ (approveTransaction false "t2" [sampleRejectedTx]).map Transaction.status
          = [TxStatus.APPROVED]
      ∧ sampleExpenseTx.status = TxStatus.APPROVED
      ∧ (rejectTransaction false "t2" [sampleExpenseTx]).map Transaction.status
          = [TxStatus.REJECTED] := by
  decide

/-- C2 (amended): on a successful remote call, `approveTransaction` sets the
status of every transaction whose id matches to APPROVED regardless of its
prior status — a no-op on an already APPROVED transaction, but it also moves a
REJECTED transaction to APPROVED — leaving all other fields and all
non-matching transactions unchanged; `rejectTransaction` symmetrically sets
matching statuses to REJECTED even from APPROVED. -/
theorem approve_reject_set_matching_status (id : String) (ts : List Transaction)
    (i : Nat) (h : i < ts.length)
    (h2 : i < (approveTransaction false id ts).length)
    (h3 : i < (rejectTransaction false id ts).length) :
    (approveTransaction false id ts)[i]
        = (if ts[i].id = id then { ts[i] with status := TxStatus.APPROVED }
           else ts[i])
      ∧ (rejectTransaction false id ts)[i]
        = (if ts[i].id = id then { ts[i] with status := TxStatus.REJECTED }
           else ts[i]) := by
  simp only [approveTransaction, rejectTransaction, if_false, Bool.false_eq_true,
    List.getElem_map]
  constructor <;> by_cases hc : ts[i].id = id <;> simp [hc]

/-- Witness for `approve_reject_set_matching_status` on a concrete REJECTED
transaction. -/
theorem approve_reject_set_matching_status_witness :
    ((approveTransaction false "t2" [sampleRejectedTx]).get ⟨0, by decide⟩
        = (if (([sampleRejectedTx] : List Transaction).get ⟨0, by decide⟩).id = "t2"
           then { ([sampleRejectedTx] : List Transaction).get ⟨0, by decide⟩ with
                    status := TxStatus.APPROVED }
           else ([sampleRejectedTx] : List Transaction).get ⟨0, by decide⟩))
      ∧ ((rejectTransaction false "t2" [sampleRejectedTx]).get ⟨0, by decide⟩
        = (if (([sampleRejectedTx] : List Transaction).get ⟨0, by decide⟩).id = "t2"
           then { ([sampleRejectedTx] : List Transaction).get ⟨0, by decide⟩ with
                    status := TxStatus.REJECTED }
           else ([sampleRejectedTx] : List Transaction).get ⟨0, by decide⟩)) :=
  approve_reject_set_matching_status "t2" [sampleRejectedTx] 0 (by decide)
    (by decide) (by decide)

/-!
### Budget mutation and settings mutation

`updateBudget` (lines 549-569): the placeholder check `id.startsWith('b-')`
dispatches insert-vs-update. The insert branch reads the returned `data` row
and replaces the matching cache entry with `mapBudget(data[0])`; when `data`
is absent (remote failure) the cache is untouched. The update branch discards
the remote result entirely and rewrites the cache unconditionally.
`updateSettings` (lines 571-578) likewise discards the remote result and runs
`setSettings(s)` unconditionally.
-/

/-- JS `String.prototype.startsWith`, modelled over the character list. -/
def strStartsWith (s pat : String) : Bool :=
  pat.toList.isPrefixOf s.toList

/-- Remote `budgets` row (snake_case shape). -/
structure BudgetRow where
  id : String
  category : String
  allocated_amount : Int
  year : Int
deriving DecidableEq, Repr

/-- Source `mapBudget` (lines 367-369): remote row to internal budget; `spentAmount`
starts at 0 and is owned by the Derived Aggregator. -/
def mapBudget (b : BudgetRow) : Budget :=
  { id := b.id, category := b.category, allocatedAmount := b.allocated_amount,
    spentAmount := 0, year := b.year }

/-- The single remote operation `updateBudget` issues. -/
inductive BudgetOp
  | insert (category : String) (allocated_amount : Int) (year : Int)
  | update (id : String) (allocated_amount : Int)
deriving DecidableEq, Repr

/-- Whether a `BudgetOp` is an insert. -/
def BudgetOp.isInsert : BudgetOp → Bool
  | BudgetOp.insert _ _ _ => true
  | BudgetOp.update _ _ => false

/-- Source `updateBudget`: `insertData` is the `data` row the insert branch gets back
(none on remote failure); `updateErr` is the update branch's remote outcome,
which the source never inspects. Returns the issued remote operation and the
new cached budget list. -/
def updateBudget (insertData : Option BudgetRow) (updateErr : Bool) (id : String)
    (amount : Int) (category : String) (year : Int) (budgets : List Budget) :
    BudgetOp × List Budget :=
  if strStartsWith id "b-" then
    (BudgetOp.insert category amount year,
      match insertData with
      | some row => budgets.map (fun b => if b.id == id then mapBudget row else b)
      | none => budgets)
  else
    (BudgetOp.update id amount,
      budgets.map (fun b =>
        if b.id == id then { b with allocatedAmount := amount } else b))

/-- Source `updateSettings`: the remote outcome `err` is never inspected —
`setSettings(s)` runs whether or not the remote update failed, so the new
value always becomes the cached settings. -/
def updateSettings (err : Bool) (s : AppSettings) (current : AppSettings) :
    AppSettings :=
  s

/-- The default settings the provider starts from (lines 346-350). -/
def defaultSettings : AppSettings :=
  { associationName := "A.E.U.C.A.B.DK", currency := "FCFA", logoUrl := "" }

/-- Distinct settings used to exhibit a cache mutation. -/
def otherSettings : AppSettings :=
  { associationName := "Autre", currency := "EUR", logoUrl := "logo.png" }

/-- A budget whose identifier is persisted (no placeholder marker). -/
def persistedBudget : Budget :=
  { id := "7", category := "Transport", allocatedAmount := 0, spentAmount := 0,
    year := 2023 }

/-- C3 counterexample: with the remote call failing, `updateSettings` still
replaces the cached settings and the persisted-identifier branch of
`updateBudget` still rewrites the cached `allocatedAmount` — neither leaves
the cache unchanged. -/
theorem update_on_remote_error_mutates_cache :
    updateSettings true otherSettings defaultSettings ≠ defaultSettings
      ∧ (updateBudget none true "7" 500 "Transport" 2023 [persistedBudget]).2
          ≠ [persistedBudget] := by
  decide

/-- C3 (amended): when the remote call fails, `approveTransaction`,
`rejectTransaction` and `deleteTransaction` leave the transaction cache
unchanged and the placeholder-insert branch of `updateBudget` leaves the
budget cache unchanged; but `updateSettings` replaces the cached settings with
the new value and the persisted-identifier branch of `updateBudget` rewrites
the matching budget's `allocatedAmount`, regardless of the failure. -/
theorem mutation_error_paths (id pid : String) (ts : List Transaction)
    (s current : AppSettings) (amount : Int) (cat : String) (yr : Int)
    (bs : List Budget) (hp : strStartsWith pid "b-" = true)
    (hq : strStartsWith id "b-" = false) :
    approveTransaction true id ts = ts
      ∧ rejectTransaction true id ts = ts
      ∧ deleteTransaction true id ts = ts
      ∧ (updateBudget none true pid amount cat yr bs).2 = bs
      ∧ updateSettings true s current = s
      ∧ (updateBudget none true id amount cat yr bs).2
          = bs.map (fun b =>
              if b.id = id then { b with allocatedAmount := amount } else b) := by
  refine ⟨rfl, rfl, rfl, ?_, rfl, ?_⟩
  · simp [updateBudget, hp]
  · simp only [updateBudget, hq, Bool.false_eq_true, if_false]
    apply List.map_congr_left
    intro b _
    by_cases hc : b.id = id <;> simp [hc]

/-- Witness for `mutation_error_paths` at concrete ids, caches and settings. -/
theorem mutation_error_paths_witness :
    approveTransaction true "7" [sampleExpenseTx] = [sampleExpenseTx]
      ∧ rejectTransaction true "7" [sampleExpenseTx] = [sampleExpenseTx]
      ∧ deleteTransaction true "7" [sampleExpenseTx] = [sampleExpenseTx]
      ∧ (updateBudget none true "b-0" 500 "Transport" 2023 [persistedBudget]).2
          = [persistedBudget]
      ∧ updateSettings true otherSettings defaultSettings = otherSettings
      ∧ (updateBudget none true "7" 500 "Transport" 2023 [persistedBudget]).2
          = [persistedBudget].map (fun b =>
              if b.id = "7" then { b with allocatedAmount := 500 } else b) :=
  mutation_error_paths "7" "b-0" [sampleExpenseTx] otherSettings defaultSettings
    500 "Transport" 2023 [persistedBudget] (by decide) (by decide)

/-- A server-assigned budget row returned by the insert round trip. -/
def serverBudgetRow : BudgetRow :=
  { id := "42", category := "Transport", allocated_amount := 500, year := 2023 }

/-- C8: the placeholder check is the sole dispatch criterion of `updateBudget`:
the issued remote operation is an insert exactly when the identifier starts
with "b-", whatever the rest of the state; on a placeholder identifier with
the server returning a row, the matching cache entry is replaced by the mapped
server entity, which keeps the server-assigned identifier (so it carries no
placeholder marker whenever the server identifier does not); on a persisted
identifier the operation is a plain update and every cached identifier is
preserved. -/
theorem updateBudget_dispatch (insertData : Option BudgetRow) (updateErr : Bool)
    (id : String) (amount : Int) (cat : String) (yr : Int) (bs : List Budget) :
    ((updateBudget insertData updateErr id amount cat yr bs).1.isInsert
        = strStartsWith id "b-")
      ∧ (∀ row, insertData = some row → strStartsWith id "b-" = true →
          (updateBudget insertData updateErr id amount cat yr bs).2
              = bs.map (fun b => if b.id = id then mapBudget row else b)
            ∧ (mapBudget row).id = row.id
            ∧ (strStartsWith row.id "b-" = false →
                strStartsWith (mapBudget row).id "b-" = false))
      ∧ (strStartsWith id "b-" = false →
          (updateBudget insertData updateErr id amount cat yr bs).1
              = BudgetOp.update id amount
            ∧ (updateBudget insertData updateErr id amount cat yr bs).2.map
                Budget.id
              = bs.map Budget.id) := by
  refine ⟨?_, ?_, ?_⟩
  · cases hs : strStartsWith id "b-" <;>
      simp [updateBudget, hs, BudgetOp.isInsert]
  · intro row hrow hs
    subst hrow
    refine ⟨?_, rfl, fun hr => hr⟩
    simp only [updateBudget, hs, if_true]
    apply List.map_congr_left
    intro b _
    by_cases hc : b.id = id <;> simp [hc]
  · intro hs
    refine ⟨?_, ?_⟩
    · simp [updateBudget, hs]
    · simp only [updateBudget, hs, Bool.false_eq_true, if_false, List.map_map]
      apply List.map_congr_left
      intro b _
      by_cases hc : b.id = id <;> simp [Function.comp, hc]

/-- Witness for `updateBudget_dispatch`: a placeholder budget is replaced by
the mapped server row, a persisted budget keeps its identifier. -/
theorem updateBudget_dispatch_witness :
    ((updateBudget (some serverBudgetRow) false "b-0" 500 "Transport" 2023
          [sampleBudget]).2
        = [sampleBudget].map (fun b =>
            if b.id = "b-0" then mapBudget serverBudgetRow else b))
      ∧ ((updateBudget none false "7" 500 "Transport" 2023
          [persistedBudget]).2.map Budget.id
        = [persistedBudget].map Budget.id) :=
  ⟨((updateBudget_dispatch (some serverBudgetRow) false "b-0" 500 "Transport"
      2023 [sampleBudget]).2.1 serverBudgetRow rfl (by decide)).1,
    ((updateBudget_dispatch none false "7" 500 "Transport" 2023
      [persistedBudget]).2.2 (by decide)).2⟩

/-!
### Field Mapper: `mapMessage` and the member-info JSON blob

`mapMessage` (lines 371-375) turns a remote `messages` row into the internal
entity. Its `member_info_json` handling is JS:
`m.member_info_json ? (typeof m.member_info_json === 'string' ?
JSON.parse(m.member_info_json) : m.member_info_json) : undefined` — the guard
is truthiness (null and the empty string are falsy), and `JSON.parse` of a
malformed string throws with no surrounding try/catch.
-/

/-- Left brace character, kept out of string literals. -/
def lbrace : Char := Char.ofNat 123

/-- Right brace character, kept out of string literals. -/
def rbrace : Char := Char.ofNat 125

/-- Consume an expected literal character sequence, returning the rest. -/
def expectChars : List Char → List Char → Option (List Char)
  | [], cs => some cs
  | _ :: _, [] => none
  | e :: es, c :: cs => if c = e then expectChars es cs else none

/-- Scan a JSON string body up to the closing quote (the snapshots the app
writes contain no escapes); returns the body and the rest. -/
def scanStr : List Char → Option (List Char × List Char)
  | [] => none
  | c :: cs =>
    if c = '"' then some ([], cs)
    else
      match scanStr cs with
      | some (acc, rest) => some (c :: acc, rest)
      | none => none

/-- Modelled from the JS builtin `JSON.parse` as invoked at line 374,
restricted to the member-info snapshot shape `JSON.stringify({sector, level})`
written at line 596 — exactly `\x7b"sector":"...","level":"..."\x7d` with no
escapes. Every string outside this shape is malformed for this model and
yields an error, standing for the `SyntaxError` that `JSON.parse` throws (it
does throw on every input the theorems below treat as malformed). -/
def parseMemberInfoJson (s : String) : Except String MemberInfo :=
  match expectChars (lbrace :: "\"sector\":\"".toList) s.toList with
  | none => Except.error "SyntaxError"
  | some cs1 =>
    match scanStr cs1 with
    | none => Except.error "SyntaxError"
    | some (sec, cs2) =>
      match expectChars ",\"level\":\"".toList cs2 with
      | none => Except.error "SyntaxError"
      | some cs3 =>
        match scanStr cs3 with
        | none => Except.error "SyntaxError"
        | some (lev, cs4) =>
          if cs4 = [rbrace] then
            Except.ok { sector := String.mk sec, level := String.mk lev }
          else Except.error "SyntaxError"

/-- A `member_info_json` column value as the client sees it: a text column
yields a string, a json column an already-decoded object; the
`typeof === 'string'` check dispatches between the two. -/
inductive JsVal
  | str (s : String)
  | obj (o : MemberInfo)
deriving DecidableEq, Repr

/-- Remote `messages` row (snake_case shape). -/
structure MessageRow where
  id : String
  user_id : String
  user_name : String
  user_role : UserRole
  content : String
  created_at : String
  member_info_json : Option JsVal
deriving DecidableEq, Repr

/-- Source `mapMessage` (lines 371-375): remote row to internal message. A falsy
`member_info_json` (null or the empty string) maps to an absent snapshot; a
non-empty string goes through `JSON.parse`, whose failure propagates out of
the mapper; an object value is used as-is. -/
def mapMessage (m : MessageRow) : Except String CommunityMessage :=
  match m.member_info_json with
  | none =>
    Except.ok { id := m.id, userId := m.user_id, userName := m.user_name,
                userRole := m.user_role, memberInfo := none,
                content := m.content, timestamp := m.created_at }
  | some (JsVal.obj o) =>
    Except.ok { id := m.id, userId := m.user_id, userName := m.user_name,
                userRole := m.user_role, memberInfo := some o,
                content := m.content, timestamp := m.created_at }
  | some (JsVal.str s) =>
    if s = "" then
      Except.ok { id := m.id, userId := m.user_id, userName := m.user_name,
                  userRole := m.user_role, memberInfo := none,
                  content := m.content, timestamp := m.created_at }
    else
      match parseMemberInfoJson s with
      | Except.ok o =>
        Except.ok { id := m.id, userId := m.user_id, userName := m.user_name,
                    userRole := m.user_role, memberInfo := some o,
                    content := m.content, timestamp := m.created_at }
      | Except.error e => Except.error e

/-- A remote message row whose `member_info_json` holds a malformed JSON
string: a lone opening brace. -/
def malformedMessageRow : MessageRow :=
  { id := "m9", user_id := "membre@asso.com", user_name := "Jean Dupont",
    user_role := UserRole.MEMBRE, content := "salut",
    created_at := "2024-01-01", member_info_json := some (JsVal.str (String.mk [lbrace])) }

/-- C4 counterexample: on a malformed member-info string the mapper propagates
the parse error — it does not return a message whose memberInfo is
undefined. -/
theorem mapMessage_malformed_throws :
    mapMessage malformedMessageRow = Except.error "SyntaxError" := rfl

/-- C4 (amended): an absent (null) `member_info_json` maps to a message whose
`memberInfo` is undefined; but a non-empty malformed JSON string makes
`mapMessage` propagate the parse error (`JSON.parse` throws and the mapper has
no handler) instead of producing a message with `memberInfo` undefined. -/
theorem mapMessage_memberInfo_handling (m : MessageRow) :
    (m.member_info_json = none →
        mapMessage m
          = Except.ok { id := m.id, userId := m.user_id, userName := m.user_name,
                        userRole := m.user_role, memberInfo := none,
                        content := m.content, timestamp := m.created_at })
      ∧ (∀ s e, m.member_info_json = some (JsVal.str s) → s ≠ "" →
          parseMemberInfoJson s = Except.error e →
          mapMessage m = Except.error e) := by
  constructor
  · intro h
    simp [mapMessage, h]
  · intro s e hjson hs hparse
    simp [mapMessage, hjson, hs, hparse]

/-- A remote message row with a null `member_info_json`. -/
def nullInfoMessageRow : MessageRow :=
  { id := "m1", user_id := "membre@asso.com", user_name := "Jean Dupont",
    user_role := UserRole.MEMBRE, content := "salut",
    created_at := "2024-01-01", member_info_json := none }

/-- Witness for `mapMessage_memberInfo_handling` on a null row and on the
malformed row. -/
theorem mapMessage_memberInfo_handling_witness :
    (mapMessage nullInfoMessageRow
        = Except.ok { id := "m1", userId := "membre@asso.com",
                      userName := "Jean Dupont", userRole := UserRole.MEMBRE,
                      memberInfo := none, content := "salut",
                      timestamp := "2024-01-01" })
      ∧ mapMessage malformedMessageRow = Except.error "SyntaxError" :=
  ⟨(mapMessage_memberInfo_handling nullInfoMessageRow).1 rfl,
    (mapMessage_memberInfo_handling malformedMessageRow).2
      (String.mk [lbrace]) "SyntaxError" rfl (by decide) rfl⟩

/-!
### `addTransaction` (lines 480-501)

The entry point takes a `Transaction` minus `id`, `status` and `signature`
(the TypeScript `Omit`; any `receiptNumber`/`proofUrl` the caller passes for
the former is ignored), and builds the snake_case insert row: the receipt
number is freshly generated exactly for INCOME, the status comes from the
session role via `user?.role === UserRole.TRESORIER`, and the signature is
generated from the clock. `now` stands for `Date.now()`.
-/

/-- The argument of `addTransaction`. -/
structure NewTransactionInput where
  type : TransactionType
  category : String
  amount : Int
  date : String
  description : String
  performedBy : String
  matricule : String
  function : String
  responsible : String
  receiptNumber : Option String
  proofUrl : Option String
deriving DecidableEq, Repr

/-- Remote `transactions` insert row (`newTx` at lines 481-495). -/
structure TransactionInsertRow where
  type : TransactionType
  category : String
  amount : Int
  date : String
  description : String
  performed_by : String
  matricule : String
  function : String
  receipt_number : Option String
  status : TxStatus
  responsible : String
  signature : String
  proof_url : Option String
deriving DecidableEq, Repr

/-- The insert row `addTransaction` builds from the session and the input. -/
def addTransactionRow (user : Option User) (now : Nat)
    (t : NewTransactionInput) : TransactionInsertRow :=
  { type := t.type, category := t.category, amount := t.amount,
    date := t.date, description := t.description,
    performed_by := t.performedBy, matricule := t.matricule,
    function := t.function,
    receipt_number :=
      if t.type == TransactionType.INCOME then some ("REC-" ++ toString now)
      else none,
    status :=
      if user.map User.role == some UserRole.TRESORIER then TxStatus.APPROVED
      else TxStatus.PENDING,
    responsible := t.responsible, signature := "SIG-" ++ toString now,
    proof_url := t.proofUrl }

theorem rec_string_ne_empty (s : String) : ("REC-" ++ s) ≠ "" := by
  intro h
  have hl := congrArg String.length h
  rw [String.length_append] at hl
  have h4 : ("REC-" : String).length = 4 := by decide
  have h0 : ("" : String).length = 0 := by decide
  rw [h4, h0] at hl
  omega

/-- C5: the created transaction row carries a non-empty receipt number exactly
when its type is INCOME. -/
theorem addTransaction_receipt_iff_income (user : Option User) (now : Nat)
    (t : NewTransactionInput) :
    (∃ r, (addTransactionRow user now t).receipt_number = some r ∧ r ≠ "")
      ↔ t.type = TransactionType.INCOME := by
  constructor
  · rintro ⟨r, hr, -⟩
    by_cases h : t.type = TransactionType.INCOME
    · exact h
    · simp [addTransactionRow, h] at hr
  · intro h
    exact ⟨"REC-" ++ toString now, by simp [addTransactionRow, h],
      rec_string_ne_empty _⟩

/-- A concrete INCOME creation input (the sample income of the mock data). -/
def sampleIncomeInput : NewTransactionInput :=
  { type := TransactionType.INCOME, category := "Cotisation", amount := 15000,
    date := "2023-10-01", description := "Cotisation annuelle",
    performedBy := "Jean Dupont", matricule := "A00000000001",
    function := "Membre", responsible := "Tresorier", receiptNumber := none,
    proofUrl := none }

/-- Witness for `addTransaction_receipt_iff_income` on a concrete INCOME
input. -/
theorem addTransaction_receipt_iff_income_witness :
    ∃ r, (addTransactionRow none 1700000000000 sampleIncomeInput).receipt_number
          = some r ∧ r ≠ "" :=
  (addTransaction_receipt_iff_income none 1700000000000 sampleIncomeInput).mpr
    rfl

/-- C6: a creation performed under a TRESORIER session yields status APPROVED;
under any other role, or with no session, it yields PENDING. -/
theorem addTransaction_status_by_role (user : Option User) (now : Nat)
    (t : NewTransactionInput) :
    (∀ u, user = some u → u.role = UserRole.TRESORIER →
        (addTransactionRow user now t).status = TxStatus.APPROVED)
      ∧ (∀ u, user = some u → u.role ≠ UserRole.TRESORIER →
        (addTransactionRow user now t).status = TxStatus.PENDING)
      ∧ (user = none → (addTransactionRow user now t).status = TxStatus.PENDING) := by
  refine ⟨?_, ?_, ?_⟩
  · intro u hu hrole
    simp [addTransactionRow, hu, hrole]
  · intro u hu hrole
    simp [addTransactionRow, hu, hrole]
  · intro hu
    simp [addTransactionRow, hu]

/-- The treasurer session principal. -/
def tresorierUser : User :=
  { email := "admin@asso.com", name := "Administrateur",
    role := UserRole.TRESORIER, memberId := none }

/-- Witness for `addTransaction_status_by_role`: a TRESORIER session gets
APPROVED, a null session gets PENDING. -/
theorem addTransaction_status_by_role_witness :
    (addTransactionRow (some tresorierUser) 1700000000000
        sampleIncomeInput).status = TxStatus.APPROVED
      ∧ (addTransactionRow none 1700000000000 sampleIncomeInput).status
          = TxStatus.PENDING :=
  ⟨(addTransaction_status_by_role (some tresorierUser) 1700000000000
      sampleIncomeInput).1 tresorierUser rfl rfl,
    (addTransaction_status_by_role none 1700000000000 sampleIncomeInput).2.2
      rfl⟩

/-!
### Credential Gate: `login` (lines 454-476)

The lookup filters the `users` table by `eq('email', email)` and
`eq('password', pass)` and applies `.single()`, which yields the row only when
exactly one matches (zero or several leave `data` null). A thrown remote error
lands in the `catch` and falls through to `return false`; `setUser` runs only
on a non-null `data`.
-/

/-- Remote `users` credential row. -/
structure UserRow where
  email : String
  password : String
  name : String
  role : UserRole
  member_id : Option String
deriving DecidableEq, Repr

/-- The result of `.single()` applied to the filtered credential query. -/
def singleMatch (db : List UserRow) (email pass : String) : Option UserRow :=
  match db.filter (fun u => u.email == email && u.password == pass) with
  | [r] => some r
  | _ => none

/-- Source `login`: `err` is a remote failure during the lookup. Returns the success
flag and the session after the call; on any failure the session keeps its
prior value. -/
def login (err : Bool) (db : List UserRow) (email pass : String)
    (session : Option User) : Bool × Option User :=
  if err then (false, session)
  else
    match singleMatch db email pass with
    | some d =>
      (true, some { email := d.email, name := d.name, role := d.role,
                    memberId := d.member_id })
    | none => (false, session)

theorem singleMatch_sound (db : List UserRow) (email pass : String)
    (r : UserRow) (h : singleMatch db email pass = some r) :
    r ∈ db ∧ r.email = email ∧ r.password = pass := by
  unfold singleMatch at h
  cases hf : db.filter (fun u => u.email == email && u.password == pass) with
  | nil => rw [hf] at h; exact absurd h (by simp)
  | cons a l =>
    cases l with
    | nil =>
      rw [hf] at h
      simp only [Option.some.injEq] at h
      have hmem : a ∈ db.filter (fun u => u.email == email && u.password == pass) := by
        rw [hf]; exact List.mem_singleton.mpr rfl
      have hm2 := List.mem_filter.mp hmem
      have hb := hm2.2
      simp only [Bool.and_eq_true, beq_iff_eq] at hb
      subst h
      exact ⟨hm2.1, hb.1, hb.2⟩
    | cons b l2 => rw [hf] at h; exact absurd h (by simp)

theorem singleMatch_none (db : List UserRow) (email pass : String)
    (h : ∀ r ∈ db, ¬(r.email = email ∧ r.password = pass)) :
    singleMatch db email pass = none := by
  unfold singleMatch
  have hf : db.filter (fun u => u.email == email && u.password == pass) = [] := by
    rw [List.filter_eq_nil_iff]
    intro a ha hpa
    simp only [Bool.and_eq_true, beq_iff_eq] at hpa
    exact h a ha hpa
  rw [hf]

/-- C7: login succeeds only on an exact credential match — on success the
session principal is built from the matching record; when no record matches
both the email and the secret, or when a remote error occurs during the
lookup, login returns false and the session is left as it was (so a null
session stays null). -/
theorem login_credential_gate (err : Bool) (db : List UserRow)
    (email pass : String) (session : Option User) :
    ((login err db email pass session).1 = true →
        ∃ r ∈ db, r.email = email ∧ r.password = pass ∧
          (login err db email pass session).2
            = some { email := r.email, name := r.name, role := r.role,
                     memberId := r.member_id })
      ∧ ((∀ r ∈ db, ¬(r.email = email ∧ r.password = pass)) →
          (login err db email pass session).1 = false
            ∧ (login err db email pass session).2 = session)
      ∧ (err = true →
          (login err db email pass session).1 = false
            ∧ (login err db email pass session).2 = session) := by
  refine ⟨?_, ?_, ?_⟩
  · intro hsucc
    by_cases he : err
    · simp [login, he] at hsucc
    · simp only [login, he, Bool.false_eq_true, if_false] at hsucc ⊢
      cases hm : singleMatch db email pass with
      | none => rw [hm] at hsucc; exact absurd hsucc (by simp)
      | some d =>
        obtain ⟨hmem, hemail, hpass⟩ := singleMatch_sound db email pass d hm
        exact ⟨d, hmem, hemail, hpass, rfl⟩
  · intro hnone
    have hm := singleMatch_none db email pass hnone
    by_cases he : err
    · simp [login, he]
    · simp [login, he, hm]
  · intro he
    simp [login, he]

/-- The admin credential record. -/
def adminRow : UserRow :=
  { email := "admin@asso.com", password := "secret",
    name := "Administrateur", role := UserRole.TRESORIER, member_id := none }

/-- Witness for `login_credential_gate`: a matching record produces a session
principal; an unrecognized email fails and keeps the session null. -/
theorem login_credential_gate_witness :
    (∃ r ∈ [adminRow], r.email = "admin@asso.com" ∧ r.password = "secret" ∧
        (login false [adminRow] "admin@asso.com" "secret" none).2
          = some { email := r.email, name := r.name, role := r.role,
                   memberId := r.member_id })
      ∧ ((login false [adminRow] "inconnu@asso.com" "secret" none).1 = false
          ∧ (login false [adminRow] "inconnu@asso.com" "secret" none).2
              = none) :=
  ⟨(login_credential_gate false [adminRow] "admin@asso.com" "secret" none).1
      (by decide),
    (login_credential_gate false [adminRow] "inconnu@asso.com" "secret"
      none).2.1 (by decide)⟩

/-!
### `addMessage` (lines 581-602)

A null session returns immediately, issuing nothing. Otherwise the member-info
snapshot is resolved from the cached members (a falsy memberId — absent or
empty — skips the lookup) and one insert row is produced; the local cache is
never written here (the realtime subscription applies the insert).
-/

/-- Remote `messages` insert row (`newMsg`, lines 592-598). -/
structure MessageInsertRow where
  user_id : String
  user_name : String
  user_role : UserRole
  member_info_json : Option String
  content : String
deriving DecidableEq, Repr

/-- The `JSON.stringify` encoding of the member-info snapshot (line 596). -/
def stringifyMemberInfo (mi : MemberInfo) : String :=
  String.mk (lbrace :: "\"sector\":\"".toList) ++ mi.sector
    ++ "\",\"level\":\"" ++ mi.level ++ String.mk ['"', rbrace]

/-- Source `addMessage`: returns the state after the call and the issued insert row,
if any. -/
def addMessage (st : StoreState) (content : String) :
    StoreState × Option MessageInsertRow :=
  match st.user with
  | none => (st, none)
  | some u =>
    let memberInfo : Option MemberInfo :=
      match u.memberId with
      | some mid =>
        if mid = "" then none
        else
          match st.members.find? (fun mem => mem.id == mid) with
          | some m => some { sector := m.sector, level := m.level }
          | none => none
      | none => none
    (st,
      some { user_id := u.email, user_name := u.name, user_role := u.role,
             member_info_json := memberInfo.map stringifyMemberInfo,
             content := content })

/-- C10: with no active session, `addMessage` issues no remote insert and
leaves every part of the cache — messages, transactions, members, budgets,
settings and the session itself — unchanged. -/
theorem addMessage_no_session_noop (st : StoreState) (content : String)
    (h : st.user = none) :
    (addMessage st content).2 = none
      ∧ (addMessage st content).1.messages = st.messages
      ∧ (addMessage st content).1.transactions = st.transactions
      ∧ (addMessage st content).1.members = st.members
      ∧ (addMessage st content).1.budgets = st.budgets
      ∧ (addMessage st content).1.settings = st.settings
      ∧ (addMessage st content).1.user = st.user := by
  simp [addMessage, h]

/-- A concrete cache snapshot with no active session. -/
def loggedOutState : StoreState :=
  { user := none, transactions := [sampleExpenseTx], members := [],
    budgets := [sampleBudget], messages := [], settings := defaultSettings }

/-- Witness for `addMessage_no_session_noop` on a concrete logged-out
snapshot. -/
theorem addMessage_no_session_noop_witness :
    (addMessage loggedOutState "bonjour").2 = none
      ∧ (addMessage loggedOutState "bonjour").1.messages
          = loggedOutState.messages
      ∧ (addMessage loggedOutState "bonjour").1.transactions
          = loggedOutState.transactions
      ∧ (addMessage loggedOutState "bonjour").1.members
          = loggedOutState.members
      ∧ (addMessage loggedOutState "bonjour").1.budgets
          = loggedOutState.budgets
      ∧ (addMessage loggedOutState "bonjour").1.settings
          = loggedOutState.settings
      ∧ (addMessage loggedOutState "bonjour").1.user = loggedOutState.user :=
  addMessage_no_session_noop loggedOutState "bonjour" rfl
